import Mathlib

/-!
Verification development for the tgsend library (tgsend.py).

The Python module is shallowly embedded: Python optional strings become
`Option String` (with Python truthiness: `None` and the empty string are
falsy), the process environment and the file system are explicit
parameters, every outbound HTTP request is recorded as a `Request` value,
and file-handle activity of the media operations is recorded as explicit
open/close traces in `OpResult`.  Exceptions raised by the Python code
become `Except PyErr` results; each distinct raise site of tgsend.py has
its own `PyErr` constructor.
-/

/-- Python truthiness of an optional string: `None` and `""` are falsy. -/
def isTruthy : Option String → Bool
  | none => false
  | some s => !(s = "")

/-- The Python expression `a or b` on optional strings: returns `a` when
`a` is truthy, otherwise `b`. -/
def pyOr (a b : Option String) : Option String :=
  if isTruthy a then a else b

/-- The Python expression `str(b)` on a boolean: `"True"` or `"False"`. -/
def pyStr (b : Bool) : String :=
  if b then "True" else "False"

/-- A value stored in an outbound parameter mapping: a Python string or
integer.  A parameter whose value is Python `None` is modelled as the
entry `(key, none)` with `none : Option PyVal`. -/
inductive PyVal
  | str (s : String)
  | int (n : Int)
deriving Repr, DecidableEq

/-- The marshalling `int(reply_to_message_id) if reply_to_message_id else None`
of tgsend.py: a missing or zero value becomes Python `None`. -/
def replyParam : Option Int → Option PyVal
  | none => none
  | some n => if n = 0 then none else some (PyVal.int n)

/- The `ParseMode` class of tgsend.py: four string constants. -/
namespace ParseMode

def NONE : String := "none"

def MARKDOWN : String := "markdown"

def MARKDOWN_V2 : String := "markdownV2"

def HTML : String := "html"

end ParseMode

/-- The six level keys of the `Telegram._icons` dictionary.  Callers of
the send operations pass one of exactly these keys (the CLI restricts
`--lvl` to this set), so the dictionary access never raises `KeyError`. -/
inductive Level
  | warn
  | alert
  | info
  | error
  | success
  | no
deriving Repr, DecidableEq

/-- A parsed INI file: sections by name, each a list of key/value pairs.
The external `configparser` collaborator is modelled as this mapping. -/
abbrev IniFile := List (String × List (String × String))

/-- The file-system state visible to `Telegram._read_config`: for each of
the three candidate locations, the parsed file when
`isfile` holds there, else `none`.
`customFile` stands for the file at `abspath(expanduser(custom_config_file))`,
`localFile` for the one at `expanduser("~/tgsend.conf")` and `systemFile`
for the one at `"/etc/tgsend.conf"`. -/
structure FS where
  customFile : Option IniFile
  localFile : Option IniFile
  systemFile : Option IniFile
deriving Repr

/-- The exceptions tgsend.py can raise during the behaviour modelled
here, one constructor per raise site:
`runtimeNoChatId` for `RuntimeError("No chat ID specified.")`,
`runtimeNoValidConfig` for
`RuntimeError("Could not find a valid configuration with BotToken.")`,
`runtimeConfigNotAvailable` for the `RuntimeError` raised by `Telegram.load`,
and `unboundLocalConfigFile` for the `UnboundLocalError` that the final
branch of `Telegram._read_config` actually raises: it evaluates
`"Configuration file ... could not be found.".format(config_file)` with
the local variable `config_file` never having been assigned. -/
inductive PyErr
  | runtimeNoChatId
  | runtimeNoValidConfig
  | runtimeConfigNotAvailable
  | unboundLocalConfigFile
deriving Repr, DecidableEq

/-- One outbound HTTP request issued through the `requests` collaborator:
the verb, the full URL, the parameter mapping (`params` for GET,
`data` for POST) and the multipart file attachments (field name paired
with the path of the file handle passed). -/
structure Request where
  verb : String
  url : String
  params : List (String × Option PyVal)
  files : List (String × String)
deriving Repr, DecidableEq

/-- The observable outcome of one send operation: the paths of the file
handles it opened (in order), the paths of the handles it closed, the
network calls it issued, and the returned value or raised exception. -/
structure OpResult where
  opens : List String
  closes : List String
  calls : List Request
  outcome : Except PyErr Request
deriving Repr

/-- Parameter mapping of the request a send operation returned
(empty when the operation raised). -/
def paramsOf (r : OpResult) : List (String × Option PyVal) :=
  match r.outcome with
  | Except.ok req => req.params
  | Except.error _ => []

/-- `BOT_API_URL` of tgsend.py. -/
def BOT_API_URL : String := "https://api.telegram.org/bot"

/-- A `Telegram` dispatcher instance: the three attributes set by
`Telegram.__init__`. -/
structure Telegram where
  token : Option String
  chat_id : Option String
  parse_mode : Option String
deriving Repr, DecidableEq

namespace Telegram

/-- The `Telegram._icons` dictionary. -/
def _icons : Level → String
  | Level.warn => "⚠"
  | Level.alert => String.singleton (Char.ofNat 0x1F198)
  | Level.info => String.singleton (Char.ofNat 0x1F4CB)
  | Level.error => "❌"
  | Level.success => "✅"
  | Level.no => ""

/-- `Telegram._read_config(name, custom_config_file)`: choose the config
file (custom path when given and existing, else the per-user file, else
the system file; when none exists the raise statement itself crashes
with `UnboundLocalError` on the unassigned `config_file`), then look up
the named section and return its `BotToken` and `ChatID` values
(`none` for a missing key or a missing section). -/
def _read_config (name : String) (custom_config_file : Option String) (fs : FS) :
    Except PyErr (Option String × Option String) :=
  let chosen : Except PyErr IniFile :=
    match (if isTruthy custom_config_file then fs.customFile else none) with
    | some f => Except.ok f
    | none =>
      match fs.localFile with
      | some f => Except.ok f
      | none =>
        match fs.systemFile with
        | some f => Except.ok f
        | none => Except.error PyErr.unboundLocalConfigFile
  match chosen with
  | Except.error e => Except.error e
  | Except.ok file =>
    match file.lookup name with
    | some sec => Except.ok (sec.lookup "BotToken", sec.lookup "ChatID")
    | none => Except.ok (none, none)

/-- `Telegram.__init__(token, chat_id, parse_mode)`.  The module-level
globals `TOKEN` and `CHAT_ID` (read from the environment variables
`TGSEND_TOKEN` and `TGSEND_CHATID`) are the parameters `envT` and `envC`.
When the token resolved from explicit/environment is falsy, the
`"Default"` section of the config file is read, any exception being
swallowed; construction fails iff no truthy token results. -/
def init (token chat_id envT envC pm : Option String) (fs : FS) :
    Except PyErr Telegram :=
  let t0 := pyOr token envT
  let c0 := pyOr chat_id envC
  let tc :=
    if !(isTruthy t0) then
      match _read_config "Default" none fs with
      | Except.ok (token_read, chat_read) =>
        (if !(isTruthy t0) then token_read else t0,
         if !(isTruthy c0) then chat_read else c0)
      | Except.error _ => (t0, c0)
    else (t0, c0)
  if !(isTruthy tc.1) then Except.error PyErr.runtimeNoValidConfig
  else Except.ok ⟨tc.1, tc.2, pm⟩

/-- `Telegram.load(name, config_file)`: read the named section, raise
when it yields no truthy token, else construct the instance through
`__init__` (which still sees the process environment). -/
def load (name : String) (config_file envT envC : Option String) (fs : FS) :
    Except PyErr Telegram :=
  match _read_config name config_file fs with
  | Except.error e => Except.error e
  | Except.ok (token, chat_id) =>
    if !(isTruthy token) then Except.error PyErr.runtimeConfigNotAvailable
    else init token chat_id envT envC (some ParseMode.MARKDOWN_V2) fs

/-- `Telegram.format_bold(text, parse_mode)`. -/
def format_bold (tg : Telegram) (text : String) (parse_mode : Option String) : String :=
  let pm := pyOr parse_mode tg.parse_mode
  if pm = some ParseMode.HTML then "<b>" ++ text ++ "</b>"
  else if pm = some ParseMode.MARKDOWN ∨ pm = some ParseMode.MARKDOWN_V2 then
    "*" ++ text ++ "*"
  else text

/-- `Telegram.format_italic(text, parse_mode)`. -/
def format_italic (tg : Telegram) (text : String) (parse_mode : Option String) : String :=
  let pm := pyOr parse_mode tg.parse_mode
  if pm = some ParseMode.HTML then "<i>" ++ text ++ "</i>"
  else if pm = some ParseMode.MARKDOWN ∨ pm = some ParseMode.MARKDOWN_V2 then
    "_" ++ text ++ "_"
  else text

/-- `Telegram.format_fixed(text, parse_mode)`. -/
def format_fixed (tg : Telegram) (text : String) (parse_mode : Option String) : String :=
  let pm := pyOr parse_mode tg.parse_mode
  if pm = some ParseMode.HTML then "<code>" ++ text ++ "</code>"
  else if pm = some ParseMode.MARKDOWN ∨ pm = some ParseMode.MARKDOWN_V2 then
    "`" ++ text ++ "`"
  else text

/-- `Telegram._text(text, title, parse_mode, icon)`: icon plus space,
then, for a truthy (non-empty) title, the bold title and a blank line,
then the body. -/
def _text (tg : Telegram) (text title : String) (parse_mode : Option String)
    (icon : String) : String :=
  let s := icon ++ " "
  let s := if title = "" then s else s ++ format_bold tg title parse_mode ++ "\n\n"
  s ++ text

/-- `Telegram._to_real_parse_mode(parse_mode)`: `ParseMode.NONE` becomes
the empty string; a `None` effective mode stays `None`. -/
def _to_real_parse_mode (tg : Telegram) (parse_mode : Option String) : Option String :=
  let pm := pyOr parse_mode tg.parse_mode
  if pm = some ParseMode.NONE then some "" else pm

/-- `Telegram.send_message`: raise when neither the instance chat id nor
the call-time chat id is truthy, otherwise issue exactly one GET to
`/sendMessage`. -/
def send_message (tg : Telegram) (text title : String)
    (chat_id parse_mode : Option String) (level : Level) (icon : String)
    (silent fixed disable_web_page_preview : Bool)
    (reply_to_message_id : Option Int) : OpResult :=
  if !(isTruthy tg.chat_id) && !(isTruthy chat_id) then
    ⟨[], [], [], Except.error PyErr.runtimeNoChatId⟩
  else
    let s := _text tg text title (pyOr parse_mode tg.parse_mode)
      (if icon = "" then _icons level else icon)
    let s := if fixed then format_fixed tg s parse_mode else s
    let params : List (String × Option PyVal) :=
      [("chat_id", (pyOr chat_id tg.chat_id).map PyVal.str),
       ("parse_mode", (_to_real_parse_mode tg parse_mode).map PyVal.str),
       ("text", some (PyVal.str s)),
       ("disable_notification", some (PyVal.str (pyStr silent))),
       ("disable_web_page_preview", some (PyVal.str (pyStr disable_web_page_preview))),
       ("reply_to_message_id", replyParam reply_to_message_id)]
    let req : Request :=
      ⟨"GET", BOT_API_URL ++ tg.token.getD "" ++ "/sendMessage", params, []⟩
    ⟨[], [], [req], Except.ok req⟩

/-- `Telegram._send_file_helper`: chat-id check, caption assembly (the
title is kept out of the caption for `/sendAudio`, which instead gets a
dedicated `title` parameter), parameter marshalling (`params.update(kwargs)`
appends the kind-specific entries, whose keys are disjoint from the base
keys), then exactly one POST.  The entries of `files` are the handles the
caller already opened. -/
def _send_file_helper (tg : Telegram) (chat_id : Option String) (method : String)
    (files : List (String × String)) (text : Option String) (title : String)
    (p_m : Option String) (lvl : Level) (icon : String) (silent : Bool)
    (reply_to_message_id : Option Int)
    (kwargs : List (String × Option PyVal)) : OpResult :=
  if !(isTruthy tg.chat_id) && !(isTruthy chat_id) then
    ⟨[], [], [], Except.error PyErr.runtimeNoChatId⟩
  else
    let text_title := if method = "/sendAudio" then "" else title
    let body := if isTruthy text then text.getD "" else ""
    let s := _text tg body text_title (pyOr p_m tg.parse_mode)
      (if icon = "" then _icons lvl else icon)
    let base : List (String × Option PyVal) :=
      [("chat_id", (pyOr chat_id tg.chat_id).map PyVal.str),
       ("parse_mode", (_to_real_parse_mode tg p_m).map PyVal.str),
       ("caption", some (PyVal.str s)),
       ("disable_notification", some (PyVal.str (pyStr silent))),
       ("reply_to_message_id", replyParam reply_to_message_id)]
    let withTitle :=
      if method = "/sendAudio" then base ++ [("title", some (PyVal.str title))]
      else base
    let params := withTitle ++ kwargs
    let req : Request :=
      ⟨"POST", BOT_API_URL ++ tg.token.getD "" ++ method, params, files⟩
    ⟨[], [], [req], Except.ok req⟩

/-- `Telegram.send_photo`: opens the photo (never closing it), then
delegates to the helper. -/
def send_photo (tg : Telegram) (photo : String) (text : Option String)
    (title : String) (chat_id parse_mode : Option String) (level : Level)
    (icon : String) (silent : Bool) (reply_to_message_id : Option Int) : OpResult :=
  let files := [("photo", photo)]
  let r := _send_file_helper tg chat_id "/sendPhoto" files text title parse_mode
    level icon silent reply_to_message_id []
  { r with opens := photo :: r.opens }

/-- `Telegram.send_document`: opens the document and, when a truthy thumb
path is given, the thumbnail (closing neither), then delegates. -/
def send_document (tg : Telegram) (document : String) (thumb text : Option String)
    (title : String) (chat_id parse_mode : Option String) (level : Level)
    (icon : String) (silent : Bool) (reply_to_message_id : Option Int) : OpResult :=
  let files := ("document", document) ::
    (if isTruthy thumb then [("thumb", thumb.getD "")] else [])
  let r := _send_file_helper tg chat_id "/sendDocument" files text title parse_mode
    level icon silent reply_to_message_id []
  { r with opens := document ::
      ((if isTruthy thumb then [thumb.getD ""] else []) ++ r.opens) }

/-- `Telegram.send_audio`: opens the audio file and optional thumbnail
(closing neither), passes `duration` and `performer` as kwargs, then
delegates with method `/sendAudio`. -/
def send_audio (tg : Telegram) (audio : String) (thumb text : Option String)
    (title : String) (chat_id parse_mode : Option String) (level : Level)
    (icon : String) (silent : Bool) (duration : Option Int)
    (performer : Option String) (reply_to_message_id : Option Int) : OpResult :=
  let files := ("audio", audio) ::
    (if isTruthy thumb then [("thumb", thumb.getD "")] else [])
  let kwargs : List (String × Option PyVal) :=
    [("duration", duration.map PyVal.int),
     ("performer", performer.map PyVal.str)]
  let r := _send_file_helper tg chat_id "/sendAudio" files text title parse_mode
    level icon silent reply_to_message_id kwargs
  { r with opens := audio ::
      ((if isTruthy thumb then [thumb.getD ""] else []) ++ r.opens) }

/-- `json.dumps` on a list of strings, as used for poll options: a JSON
array with `", "` separators; quotes and backslashes in the items are
escaped (control-character escaping is not modelled). -/
def json_dumps (options : List String) : String :=
  let esc := fun (c : Char) =>
    if c = '\\' then "\\\\" else if c = '"' then "\\\"" else String.singleton c
  let quote := fun (s : String) => "\"" ++ String.join (s.toList.map esc) ++ "\""
  "[" ++ String.intercalate ", " (options.map quote) ++ "]"

/-- `Telegram.send_poll`: chat-id check, then one GET to `/sendPoll`
carrying the question, the JSON-serialized options and the remaining
fields (missing optional values stay in the mapping as Python `None`). -/
def send_poll (tg : Telegram) (question : String) (options : List String)
    (chat_id : Option String) (is_anonymous : Bool) (type : String)
    (allows_multiple_answers : Bool) (correct_option_id : Option Int)
    (explanation explanation_parse_mode : Option String)
    (open_period close_date : Option Int) (is_closed silent : Bool)
    (reply_to_message_id : Option Int) : OpResult :=
  if !(isTruthy tg.chat_id) && !(isTruthy chat_id) then
    ⟨[], [], [], Except.error PyErr.runtimeNoChatId⟩
  else
    let params : List (String × Option PyVal) :=
      [("chat_id", (pyOr chat_id tg.chat_id).map PyVal.str),
       ("question", some (PyVal.str question)),
       ("options", some (PyVal.str (json_dumps options))),
       ("is_anonymous", some (PyVal.str (pyStr is_anonymous))),
       ("type", some (PyVal.str type)),
       ("allows_multiple_answers", some (PyVal.str (pyStr allows_multiple_answers))),
       ("correct_option_id", correct_option_id.map PyVal.int),
       ("explanation", explanation.map PyVal.str),
       ("explanation_parse_mode", explanation_parse_mode.map PyVal.str),
       ("open_period", open_period.map PyVal.int),
       ("close_date", close_date.map PyVal.int),
       ("is_closed", some (PyVal.str (pyStr is_closed))),
       ("disable_notification", some (PyVal.str (pyStr silent))),
       ("reply_to_message_id", replyParam reply_to_message_id)]
    let req : Request :=
      ⟨"GET", BOT_API_URL ++ tg.token.getD "" ++ "/sendPoll", params, []⟩
    ⟨[], [], [req], Except.ok req⟩

/-- `Telegram.send_sticker`: chat-id check first, then the sticker file
is opened (never closed) and one POST issued; on the no-chat-id failure
path nothing has been opened yet. -/
def send_sticker (tg : Telegram) (sticker : String) (chat_id : Option String)
    (silent : Bool) (reply_to_message_id : Option Int) : OpResult :=
  if !(isTruthy tg.chat_id) && !(isTruthy chat_id) then
    ⟨[], [], [], Except.error PyErr.runtimeNoChatId⟩
  else
    let params : List (String × Option PyVal) :=
      [("chat_id", (pyOr chat_id tg.chat_id).map PyVal.str),
       ("disable_notification", some (PyVal.str (pyStr silent))),
       ("reply_to_message_id", replyParam reply_to_message_id)]
    let req : Request :=
      ⟨"POST", BOT_API_URL ++ tg.token.getD "" ++ "/sendSticker", params,
       [("sticker", sticker)]⟩
    ⟨[sticker], [], [req], Except.ok req⟩


/-- `Telegram.send_video`: opens the video file and optional thumbnail
(closing neither), passes duration, width, height and the stringified
streaming flag as kwargs, then delegates with method `/sendVideo`. -/
def send_video (tg : Telegram) (video : String) (thumb text : Option String)
    (title : String) (chat_id parse_mode : Option String) (level : Level)
    (icon : String) (silent : Bool) (duration width height : Option Int)
    (supports_streaming : Bool) (reply_to_message_id : Option Int) : OpResult :=
  let files := ("video", video) ::
    (if isTruthy thumb then [("thumb", thumb.getD "")] else [])
  let kwargs : List (String × Option PyVal) :=
    [("duration", duration.map PyVal.int),
     ("width", width.map PyVal.int),
     ("height", height.map PyVal.int),
     ("supports_streaming", some (PyVal.str (pyStr supports_streaming)))]
  let r := _send_file_helper tg chat_id "/sendVideo" files text title parse_mode
    level icon silent reply_to_message_id kwargs
  { r with opens := video ::
      ((if isTruthy thumb then [thumb.getD ""] else []) ++ r.opens) }

/-- `Telegram.send_animation`: opens the animation file and optional
thumbnail (closing neither), passes duration, width and height as
kwargs, then delegates with method `/sendAnimation`. -/
def send_animation (tg : Telegram) (animation : String) (thumb text : Option String)
    (title : String) (chat_id parse_mode : Option String) (level : Level)
    (icon : String) (silent : Bool) (duration width height : Option Int)
    (reply_to_message_id : Option Int) : OpResult :=
  let files := ("animation", animation) ::
    (if isTruthy thumb then [("thumb", thumb.getD "")] else [])
  let kwargs : List (String × Option PyVal) :=
    [("duration", duration.map PyVal.int),
     ("width", width.map PyVal.int),
     ("height", height.map PyVal.int)]
  let r := _send_file_helper tg chat_id "/sendAnimation" files text title
    parse_mode level icon silent reply_to_message_id kwargs
  { r with opens := animation ::
      ((if isTruthy thumb then [thumb.getD ""] else []) ++ r.opens) }

/-- `Telegram.send_voice`: opens the voice file (never closing it),
passes duration as a kwarg, then delegates with method `/sendVoice`
(no thumbnail parameter exists for voice). -/
def send_voice (tg : Telegram) (voice : String) (text : Option String)
    (title : String) (chat_id parse_mode : Option String) (level : Level)
    (icon : String) (silent : Bool) (duration : Option Int)
    (reply_to_message_id : Option Int) : OpResult :=
  let files := [("voice", voice)]
  let kwargs : List (String × Option PyVal) :=
    [("duration", duration.map PyVal.int)]
  let r := _send_file_helper tg chat_id "/sendVoice" files text title parse_mode
    level icon silent reply_to_message_id kwargs
  { r with opens := voice :: r.opens }

/-- `Telegram.send_location`: chat-id check, then one GET to
`/sendLocation` carrying the coordinates as given. -/
def send_location (tg : Telegram) (latitude longitude : PyVal)
    (chat_id : Option String) (silent : Bool)
    (reply_to_message_id : Option Int) : OpResult :=
  if !(isTruthy tg.chat_id) && !(isTruthy chat_id) then
    ⟨[], [], [], Except.error PyErr.runtimeNoChatId⟩
  else
    let params : List (String × Option PyVal) :=
      [("chat_id", (pyOr chat_id tg.chat_id).map PyVal.str),
       ("latitude", some latitude),
       ("longitude", some longitude),
       ("disable_notification", some (PyVal.str (pyStr silent))),
       ("reply_to_message_id", replyParam reply_to_message_id)]
    let req : Request :=
      ⟨"GET", BOT_API_URL ++ tg.token.getD "" ++ "/sendLocation", params, []⟩
    ⟨[], [], [req], Except.ok req⟩

/-- `Telegram.send_venue`: chat-id check, then one GET to `/sendVenue`
carrying the coordinates, title and address. -/
def send_venue (tg : Telegram) (latitude longitude : PyVal)
    (title address : String) (chat_id : Option String) (silent : Bool)
    (reply_to_message_id : Option Int) : OpResult :=
  if !(isTruthy tg.chat_id) && !(isTruthy chat_id) then
    ⟨[], [], [], Except.error PyErr.runtimeNoChatId⟩
  else
    let params : List (String × Option PyVal) :=
      [("chat_id", (pyOr chat_id tg.chat_id).map PyVal.str),
       ("latitude", some latitude),
       ("longitude", some longitude),
       ("title", some (PyVal.str title)),
       ("address", some (PyVal.str address)),
       ("disable_notification", some (PyVal.str (pyStr silent))),
       ("reply_to_message_id", replyParam reply_to_message_id)]
    let req : Request :=
      ⟨"GET", BOT_API_URL ++ tg.token.getD "" ++ "/sendVenue", params, []⟩
    ⟨[], [], [req], Except.ok req⟩

/-- `Telegram.send_contact`: chat-id check, then one GET to
`/sendContact`; the optional last name and vcard stay in the mapping as
Python `None` when not supplied. -/
def send_contact (tg : Telegram) (phone_number first_name : String)
    (last_name vcard : Option String) (chat_id : Option String) (silent : Bool)
    (reply_to_message_id : Option Int) : OpResult :=
  if !(isTruthy tg.chat_id) && !(isTruthy chat_id) then
    ⟨[], [], [], Except.error PyErr.runtimeNoChatId⟩
  else
    let params : List (String × Option PyVal) :=
      [("chat_id", (pyOr chat_id tg.chat_id).map PyVal.str),
       ("phone_number", some (PyVal.str phone_number)),
       ("first_name", some (PyVal.str first_name)),
       ("last_name", last_name.map PyVal.str),
       ("vcard", vcard.map PyVal.str),
       ("disable_notification", some (PyVal.str (pyStr silent))),
       ("reply_to_message_id", replyParam reply_to_message_id)]
    let req : Request :=
      ⟨"GET", BOT_API_URL ++ tg.token.getD "" ++ "/sendContact", params, []⟩
    ⟨[], [], [req], Except.ok req⟩

end Telegram

/-- Selector for the three markup wrappers of the formatter contract. -/
inductive Wrapper
  | bold
  | italic
  | fixed
deriving Repr, DecidableEq

/-- Apply the selected wrapper method of the dispatcher. -/
def format_wrapper (w : Wrapper) (tg : Telegram) (text : String)
    (parse_mode : Option String) : String :=
  match w with
  | Wrapper.bold => Telegram.format_bold tg text parse_mode
  | Wrapper.italic => Telegram.format_italic tg text parse_mode
  | Wrapper.fixed => Telegram.format_fixed tg text parse_mode

/-- Two successive invocations of the same wrapper on the same string
with the same parse mode, as in the spec scenario of formatting the same
string twice: the pair of the two outputs. -/
def formatSameStringTwice (w : Wrapper) (tg : Telegram) (text : String)
    (parse_mode : Option String) : String × String :=
  (format_wrapper w tg text parse_mode, format_wrapper w tg text parse_mode)

/-- A dispatcher with both credentials resolved, used for concrete
instantiations. -/
def tgX : Telegram := ⟨some "tok", some "chat", some ParseMode.MARKDOWN_V2⟩

/-- A dispatcher whose chat id is unresolved. -/
def tgNoChat : Telegram := ⟨some "tok", none, some ParseMode.MARKDOWN_V2⟩

/-- A file system with no config file at any candidate path. -/
def fsEmpty : FS := ⟨none, none, none⟩

/-- A file system whose per-user config file has a `Default` section
holding a `BotToken` but no `ChatID`. -/
def fsDefaultTokenOnly : FS := ⟨none, some [("Default", [("BotToken", "t")])], none⟩

/-- Claim C6: for every input string, the bold/italic/fixed formatters
produce exactly the renderings of the selected parse mode: HTML wraps in
b, i and code tags, Markdown and MarkdownV2 wrap in asterisks,
underscores and backquotes, and parse mode NONE returns the input
unchanged. -/
theorem claim_C6_formatter_renderings (tg : Telegram) (s : String) :
    Telegram.format_bold tg s (some ParseMode.HTML) = "<b>" ++ s ++ "</b>"
    ∧ Telegram.format_italic tg s (some ParseMode.HTML) = "<i>" ++ s ++ "</i>"
    ∧ Telegram.format_fixed tg s (some ParseMode.HTML) = "<code>" ++ s ++ "</code>"
    ∧ Telegram.format_bold tg s (some ParseMode.MARKDOWN) = "*" ++ s ++ "*"
    ∧ Telegram.format_bold tg s (some ParseMode.MARKDOWN_V2) = "*" ++ s ++ "*"
    ∧ Telegram.format_italic tg s (some ParseMode.MARKDOWN) = "_" ++ s ++ "_"
    ∧ Telegram.format_italic tg s (some ParseMode.MARKDOWN_V2) = "_" ++ s ++ "_"
    ∧ Telegram.format_fixed tg s (some ParseMode.MARKDOWN) = "`" ++ s ++ "`"
    ∧ Telegram.format_fixed tg s (some ParseMode.MARKDOWN_V2) = "`" ++ s ++ "`"
    ∧ Telegram.format_bold tg s (some ParseMode.NONE) = s
    ∧ Telegram.format_italic tg s (some ParseMode.NONE) = s
    ∧ Telegram.format_fixed tg s (some ParseMode.NONE) = s := by
  simp [Telegram.format_bold, Telegram.format_italic, Telegram.format_fixed,
    pyOr, isTruthy, ParseMode.HTML, ParseMode.MARKDOWN, ParseMode.MARKDOWN_V2,
    ParseMode.NONE]

/-- Claim C7: formatting the same string twice with the same parse mode
and the same wrapper yields the same output (the formatters are pure:
two successive invocations agree), and formatting under parse mode NONE
always returns the input unchanged (whether NONE is selected per call or
as the dispatcher default). -/
theorem claim_C7_format_same_twice (w : Wrapper) (tg : Telegram) (s : String)
    (parse_mode : Option String) :
    (formatSameStringTwice w tg s parse_mode).1
      = (formatSameStringTwice w tg s parse_mode).2
    ∧ format_wrapper w tg s (some ParseMode.NONE) = s
    ∧ format_wrapper w ⟨tg.token, tg.chat_id, some ParseMode.NONE⟩ s none = s := by
  refine ⟨rfl, ?_, ?_⟩ <;>
    cases w <;>
      simp [format_wrapper, Telegram.format_bold, Telegram.format_italic,
        Telegram.format_fixed, pyOr, isTruthy, ParseMode.HTML,
        ParseMode.MARKDOWN, ParseMode.MARKDOWN_V2, ParseMode.NONE]

/-- Claim C8: the assembled caption/body is the icon plus a space, then,
for a non-empty title, the bold-rendered title followed by a blank line
and the body; for an empty title the title segment and its separator are
omitted and the result is the icon-plus-space prefix followed directly
by the body. -/
theorem claim_C8_text_assembly (tg : Telegram) (text title : String)
    (parse_mode : Option String) (icon : String) :
    (title ≠ "" → Telegram._text tg text title parse_mode icon
      = icon ++ " " ++ Telegram.format_bold tg title parse_mode ++ "\n\n" ++ text)
    ∧ (title = "" → Telegram._text tg text title parse_mode icon
      = icon ++ " " ++ text) := by
  constructor <;> intro h <;> simp [Telegram._text, h, String.append_assoc]

/-- Witness for C8 at a concrete non-empty title. -/
theorem claim_C8_text_assembly_witness :
    Telegram._text tgX "body" "T" (some ParseMode.HTML) "i"
      = "i" ++ " " ++ Telegram.format_bold tgX "T" (some ParseMode.HTML)
        ++ "\n\n" ++ "body" :=
  (claim_C8_text_assembly tgX "body" "T" (some ParseMode.HTML) "i").1 (by decide)

/-- `isTruthy` of Python `None` is false. -/
theorem isTruthy_none : isTruthy none = false := rfl

/-- `pyOr` keeps a truthy first argument. -/
theorem pyOr_of_truthy {a b : Option String} (h : isTruthy a = true) :
    pyOr a b = a := by
  simp [pyOr, h]

/-- `pyOr` falls through a falsy first argument. -/
theorem pyOr_of_falsy {a b : Option String} (h : isTruthy a = false) :
    pyOr a b = b := by
  simp [pyOr, h]

/-- Case analysis of `Telegram.init`: with a truthy explicit/environment
token the config file is never read; otherwise the `"Default"` section
decides the outcome, a falsy chat id being filled from it. -/
theorem Telegram.init_cases (token chat_id envT envC pm : Option String) (fs : FS) :
    Telegram.init token chat_id envT envC pm fs =
      (if isTruthy (pyOr token envT) then
        Except.ok ⟨pyOr token envT, pyOr chat_id envC, pm⟩
      else
        match Telegram._read_config "Default" none fs with
        | Except.ok (token_read, chat_read) =>
          if isTruthy token_read then
            Except.ok ⟨token_read,
              if isTruthy (pyOr chat_id envC) then pyOr chat_id envC else chat_read,
              pm⟩
          else Except.error PyErr.runtimeNoValidConfig
        | Except.error _ => Except.error PyErr.runtimeNoValidConfig) := by
  unfold Telegram.init
  cases h : isTruthy (pyOr token envT) <;> simp [h]
  cases hr : Telegram._read_config "Default" none fs with
  | ok p =>
    obtain ⟨tr, cr⟩ := p
    cases hc : isTruthy (pyOr chat_id envC) <;>
      cases htr : isTruthy tr <;> simp [hc, htr]
  | error e => simp [h]

/-- Claim C1: credential resolution at construction follows the
precedence explicit > environment > config file.  A truthy explicit
token (and, independently, chat id) is used; a falsy explicit value
falls back to the environment variable when that is truthy; the
`"Default"` config section has no influence whenever explicit or
environment supply a token; and resolving with only one precedence
level populated (explicit only, environment only, file only) yields
exactly the token and chat id of that level, while with no level populated
construction fails. -/
theorem claim_C1_credential_precedence
    (token chat_id envT envC pm : Option String) (fs : FS) :
    (∀ tg, Telegram.init token chat_id envT envC pm fs = Except.ok tg →
      (isTruthy token = true → tg.token = token)
      ∧ (isTruthy chat_id = true → tg.chat_id = chat_id)
      ∧ (isTruthy token = false → isTruthy envT = true → tg.token = envT)
      ∧ (isTruthy chat_id = false → isTruthy envC = true → tg.chat_id = envC))
    ∧ (isTruthy (pyOr token envT) = true →
      ∀ fs2, Telegram.init token chat_id envT envC pm fs
        = Telegram.init token chat_id envT envC pm fs2)
    ∧ (isTruthy token = true → isTruthy chat_id = true →
      Telegram.init token chat_id none none pm fs = Except.ok ⟨token, chat_id, pm⟩)
    ∧ (isTruthy envT = true → isTruthy envC = true →
      Telegram.init none none envT envC pm fs = Except.ok ⟨envT, envC, pm⟩)
    ∧ (∀ ft fc, Telegram._read_config "Default" none fs = Except.ok (ft, fc) →
      isTruthy ft = true →
      Telegram.init none none none none pm fs = Except.ok ⟨ft, fc, pm⟩)
    ∧ (∀ ft fc, Telegram._read_config "Default" none fs = Except.ok (ft, fc) →
      isTruthy ft = false →
      Telegram.init none none none none pm fs
        = Except.error PyErr.runtimeNoValidConfig)
    ∧ (∀ e, Telegram._read_config "Default" none fs = Except.error e →
      Telegram.init none none none none pm fs
        = Except.error PyErr.runtimeNoValidConfig) := by
  refine ⟨?_, ?_, ?_, ?_, ?_, ?_, ?_⟩
  · intro tg htg
    rw [Telegram.init_cases] at htg
    refine ⟨?_, ?_, ?_, ?_⟩
    · intro ht
      have h1 : isTruthy (pyOr token envT) = true := by
        rw [pyOr_of_truthy ht]; exact ht
      rw [if_pos h1] at htg
      injection htg with h
      subst h
      simp [pyOr_of_truthy ht]
    · intro hc
      have hceq : pyOr chat_id envC = chat_id := pyOr_of_truthy hc
      have hc0 : isTruthy (pyOr chat_id envC) = true := by rw [hceq]; exact hc
      by_cases h1 : isTruthy (pyOr token envT) = true
      · rw [if_pos h1] at htg
        injection htg with h
        subst h
        simp [hceq]
      · rw [if_neg h1] at htg
        split at htg
        next tr cr heq =>
          split at htg
          · injection htg with h
            subst h
            simp [hc0, hceq]
          · exact Except.noConfusion htg
        next e heq => exact Except.noConfusion htg
    · intro ht he
      have h0 : pyOr token envT = envT := pyOr_of_falsy ht
      have h1 : isTruthy (pyOr token envT) = true := by rw [h0]; exact he
      rw [if_pos h1] at htg
      injection htg with h
      subst h
      simp [h0]
    · intro hc he
      have h0 : pyOr chat_id envC = envC := pyOr_of_falsy hc
      have hc0 : isTruthy (pyOr chat_id envC) = true := by rw [h0]; exact he
      by_cases h1 : isTruthy (pyOr token envT) = true
      · rw [if_pos h1] at htg
        injection htg with h
        subst h
        simp [h0]
      · rw [if_neg h1] at htg
        split at htg
        next tr cr heq =>
          split at htg
          · injection htg with h
            subst h
            simp [hc0, h0]
          · exact Except.noConfusion htg
        next e heq => exact Except.noConfusion htg
  · intro h1 fs2
    rw [Telegram.init_cases, Telegram.init_cases, if_pos h1, if_pos h1]
  · intro ht hc
    rw [Telegram.init_cases]
    have h1 : isTruthy (pyOr token none) = true := by
      rw [pyOr_of_truthy ht]; exact ht
    rw [if_pos h1, pyOr_of_truthy ht, pyOr_of_truthy hc]
  · intro ht hc
    rw [Telegram.init_cases]
    have h1 : isTruthy (pyOr (none : Option String) envT) = true := by
      simp [pyOr, isTruthy]; exact ht
    rw [if_pos h1]
    simp [pyOr, isTruthy]
  · intro ft fc hr htr
    rw [Telegram.init_cases]
    simp [pyOr, isTruthy_none, hr, htr]
  · intro ft fc hr htr
    rw [Telegram.init_cases]
    simp [pyOr, isTruthy_none, hr, htr]
  · intro e hr
    rw [Telegram.init_cases]
    simp [pyOr, isTruthy_none, hr]

/-- Witness for C1: explicit-only construction on an empty environment
and file system yields exactly the explicit credentials. -/
theorem claim_C1_credential_precedence_witness :
    Telegram.init (some "tk") (some "ch") none none
      (some ParseMode.MARKDOWN_V2) fsEmpty
      = Except.ok ⟨some "tk", some "ch", some ParseMode.MARKDOWN_V2⟩ :=
  (claim_C1_credential_precedence (some "tk") (some "ch") none none
    (some ParseMode.MARKDOWN_V2) fsEmpty).2.2.1 (by decide) (by decide)

/-- Counterexample for C2: `load` does not resolve the chat id from the
config file only.  With a `Default` section holding a `BotToken` but no
`ChatID`, and the environment chat-id variable set, the dispatcher
returned by `load` carries the environment chat id, although the
file-lookup step yielded no chat id. -/
theorem claim_C2_counterexample :
    Telegram._read_config "Default" none fsDefaultTokenOnly
      = Except.ok (some "t", none)
    ∧ Telegram.load "Default" none none (some "envchat") fsDefaultTokenOnly
      = Except.ok ⟨some "t", some "envchat", some ParseMode.MARKDOWN_V2⟩ :=
  ⟨rfl, rfl⟩

/-- Claim C2, amended: `load(name, config_path?)` resolves the token
from the config file only and fails loudly — it propagates any
file-lookup failure and raises a configuration error whenever the
requested section yields no truthy token, unlike default construction
which swallows config-read errors and raises only at the final no-token
check.  The chat id, however, is file-only just when the section
provides one: when the section lacks a `ChatID`, the constructor invoked
by `load` falls back to the environment chat-id variable. -/
theorem claim_C2_load_contract (name : String)
    (config_file envT envC : Option String) (fs : FS) :
    (∀ e, Telegram._read_config name config_file fs = Except.error e →
      Telegram.load name config_file envT envC fs = Except.error e)
    ∧ (∀ tok chat, Telegram._read_config name config_file fs = Except.ok (tok, chat) →
      (isTruthy tok = false →
        Telegram.load name config_file envT envC fs
          = Except.error PyErr.runtimeConfigNotAvailable)
      ∧ (isTruthy tok = true →
        Telegram.load name config_file envT envC fs
          = Except.ok ⟨tok, pyOr chat envC, some ParseMode.MARKDOWN_V2⟩)) := by
  constructor
  · intro e hr
    unfold Telegram.load
    rw [hr]
  · intro tok chat hr
    constructor
    · intro htok
      unfold Telegram.load
      rw [hr]
      simp [htok]
    · intro htok
      unfold Telegram.load
      rw [hr]
      simp only [htok, Bool.not_true, Bool.false_eq_true, if_false]
      rw [Telegram.init_cases]
      have h1 : isTruthy (pyOr tok envT) = true := by
        rw [pyOr_of_truthy htok]; exact htok
      rw [if_pos h1, pyOr_of_truthy htok]

/-- Witness for the amended C2 at a concrete section lacking `ChatID`:
the environment chat id flows into the result. -/
theorem claim_C2_load_contract_witness :
    Telegram.load "Default" none none (some "envchat") fsDefaultTokenOnly
      = Except.ok ⟨some "t", some "envchat", some ParseMode.MARKDOWN_V2⟩ :=
  ((claim_C2_load_contract "Default" none none (some "envchat")
    fsDefaultTokenOnly).2 (some "t") none rfl).2 rfl

/-- Claim C5 (code bug): config-file lookup does try, in order, the
explicit custom path (only when given and existing), then the per-user
path, then the system path — the concrete selections below exercise
each step of that order — but when no candidate file exists the failing
branch does not raise the intended configuration-file-not-found error:
formatting its message reads the never-assigned local `config_file`, so
an `UnboundLocalError` is what reaches the caller. -/
theorem claim_C5_lookup_order_and_notfound_bug :
    Telegram._read_config "Default" (some "/c")
      ⟨some [("Default", [("BotToken", "c1")])],
       some [("Default", [("BotToken", "c2")])],
       some [("Default", [("BotToken", "c3")])]⟩ = Except.ok (some "c1", none)
    ∧ Telegram._read_config "Default" none
      ⟨some [("Default", [("BotToken", "c1")])],
       some [("Default", [("BotToken", "c2")])],
       some [("Default", [("BotToken", "c3")])]⟩ = Except.ok (some "c2", none)
    ∧ Telegram._read_config "Default" (some "/c")
      ⟨none,
       some [("Default", [("BotToken", "c2")])],
       some [("Default", [("BotToken", "c3")])]⟩ = Except.ok (some "c2", none)
    ∧ Telegram._read_config "Default" (some "/c")
      ⟨none, none,
       some [("Default", [("BotToken", "c3")])]⟩ = Except.ok (some "c3", none)
    ∧ Telegram._read_config "Default" none fsEmpty
      = Except.error PyErr.unboundLocalConfigFile
    ∧ Telegram._read_config "Default" (some "/c") fsEmpty
      = Except.error PyErr.unboundLocalConfigFile :=
  ⟨rfl, rfl, rfl, rfl, rfl, rfl⟩

/-- Claim C3: when neither the resolved chat id of the dispatcher nor the
call-time override is truthy, every send operation fails with the
no-chat-id error and issues zero network calls; conversely, with a chat
id available each operation issues exactly one network call.  Stated for
`send_message`, for `_send_file_helper` (through which every media
operation sends), and for `send_poll`, `send_sticker`, `send_location`,
`send_venue` and `send_contact`. -/
theorem claim_C3_chat_id_guard (tg : Telegram) (chat_id : Option String) :
    ((isTruthy tg.chat_id = false ∧ isTruthy chat_id = false) →
      (∀ (text title : String) (parse_mode : Option String) (level : Level)
        (icon : String) (silent fixed dwpp : Bool) (rtmi : Option Int),
        (Telegram.send_message tg text title chat_id parse_mode level icon
          silent fixed dwpp rtmi).calls = []
        ∧ (Telegram.send_message tg text title chat_id parse_mode level icon
          silent fixed dwpp rtmi).outcome = Except.error PyErr.runtimeNoChatId)
      ∧ (∀ (method : String) (files : List (String × String))
        (text : Option String) (title : String) (p_m : Option String)
        (lvl : Level) (icon : String) (silent : Bool) (rtmi : Option Int)
        (kwargs : List (String × Option PyVal)),
        (Telegram._send_file_helper tg chat_id method files text title p_m lvl
          icon silent rtmi kwargs).calls = []
        ∧ (Telegram._send_file_helper tg chat_id method files text title p_m lvl
          icon silent rtmi kwargs).outcome = Except.error PyErr.runtimeNoChatId)
      ∧ (∀ (question : String) (options : List String) (ia : Bool) (ty : String)
        (ama : Bool) (coi : Option Int) (ex epm : Option String)
        (op cd : Option Int) (ic silent : Bool) (rtmi : Option Int),
        (Telegram.send_poll tg question options chat_id ia ty ama coi ex epm
          op cd ic silent rtmi).calls = []
        ∧ (Telegram.send_poll tg question options chat_id ia ty ama coi ex epm
          op cd ic silent rtmi).outcome = Except.error PyErr.runtimeNoChatId)
      ∧ (∀ (sticker : String) (silent : Bool) (rtmi : Option Int),
        (Telegram.send_sticker tg sticker chat_id silent rtmi).calls = []
        ∧ (Telegram.send_sticker tg sticker chat_id silent rtmi).outcome
          = Except.error PyErr.runtimeNoChatId)
      ∧ (∀ (latitude longitude : PyVal) (silent : Bool) (rtmi : Option Int),
        (Telegram.send_location tg latitude longitude chat_id silent
          rtmi).calls = []
        ∧ (Telegram.send_location tg latitude longitude chat_id silent
          rtmi).outcome = Except.error PyErr.runtimeNoChatId)
      ∧ (∀ (latitude longitude : PyVal) (vtitle address : String)
        (silent : Bool) (rtmi : Option Int),
        (Telegram.send_venue tg latitude longitude vtitle address chat_id
          silent rtmi).calls = []
        ∧ (Telegram.send_venue tg latitude longitude vtitle address chat_id
          silent rtmi).outcome = Except.error PyErr.runtimeNoChatId)
      ∧ (∀ (phone first : String) (last vcard : Option String) (silent : Bool)
        (rtmi : Option Int),
        (Telegram.send_contact tg phone first last vcard chat_id silent
          rtmi).calls = []
        ∧ (Telegram.send_contact tg phone first last vcard chat_id silent
          rtmi).outcome = Except.error PyErr.runtimeNoChatId))
    ∧ ((isTruthy tg.chat_id = true ∨ isTruthy chat_id = true) →
      (∀ (text title : String) (parse_mode : Option String) (level : Level)
        (icon : String) (silent fixed dwpp : Bool) (rtmi : Option Int),
        (Telegram.send_message tg text title chat_id parse_mode level icon
          silent fixed dwpp rtmi).calls.length = 1)
      ∧ (∀ (method : String) (files : List (String × String))
        (text : Option String) (title : String) (p_m : Option String)
        (lvl : Level) (icon : String) (silent : Bool) (rtmi : Option Int)
        (kwargs : List (String × Option PyVal)),
        (Telegram._send_file_helper tg chat_id method files text title p_m lvl
          icon silent rtmi kwargs).calls.length = 1)
      ∧ (∀ (question : String) (options : List String) (ia : Bool) (ty : String)
        (ama : Bool) (coi : Option Int) (ex epm : Option String)
        (op cd : Option Int) (ic silent : Bool) (rtmi : Option Int),
        (Telegram.send_poll tg question options chat_id ia ty ama coi ex epm
          op cd ic silent rtmi).calls.length = 1)
      ∧ (∀ (sticker : String) (silent : Bool) (rtmi : Option Int),
        (Telegram.send_sticker tg sticker chat_id silent rtmi).calls.length = 1)
      ∧ (∀ (latitude longitude : PyVal) (silent : Bool) (rtmi : Option Int),
        (Telegram.send_location tg latitude longitude chat_id silent
          rtmi).calls.length = 1)
      ∧ (∀ (latitude longitude : PyVal) (vtitle address : String)
        (silent : Bool) (rtmi : Option Int),
        (Telegram.send_venue tg latitude longitude vtitle address chat_id
          silent rtmi).calls.length = 1)
      ∧ (∀ (phone first : String) (last vcard : Option String) (silent : Bool)
        (rtmi : Option Int),
        (Telegram.send_contact tg phone first last vcard chat_id silent
          rtmi).calls.length = 1)) := by
  constructor
  · rintro ⟨h1, h2⟩
    refine ⟨?_, ?_, ?_, ?_, ?_, ?_, ?_⟩ <;> intros <;>
      constructor <;>
        simp [Telegram.send_message, Telegram._send_file_helper,
          Telegram.send_poll, Telegram.send_sticker, Telegram.send_location,
          Telegram.send_venue, Telegram.send_contact, h1, h2]
  · intro h
    refine ⟨?_, ?_, ?_, ?_, ?_, ?_, ?_⟩ <;> intros <;>
      rcases h with h | h <;>
        simp [Telegram.send_message, Telegram._send_file_helper,
          Telegram.send_poll, Telegram.send_sticker, Telegram.send_location,
          Telegram.send_venue, Telegram.send_contact, h]

/-- Witness for C3: a dispatcher without a chat id and no override fails
with zero calls; with a chat id resolved, exactly one call is issued. -/
theorem claim_C3_chat_id_guard_witness :
    (Telegram.send_message tgNoChat "x" "" none none Level.no "" false false
      true none).calls = []
    ∧ (Telegram.send_message tgNoChat "x" "" none none Level.no "" false false
      true none).outcome = Except.error PyErr.runtimeNoChatId
    ∧ (Telegram.send_message tgX "x" "" none none Level.no "" false false
      true none).calls.length = 1 :=
  ⟨(((claim_C3_chat_id_guard tgNoChat none).1 ⟨by decide, by decide⟩).1
      "x" "" none Level.no "" false false true none).1,
   (((claim_C3_chat_id_guard tgNoChat none).1 ⟨by decide, by decide⟩).1
      "x" "" none Level.no "" false false true none).2,
   ((claim_C3_chat_id_guard tgX none).2 (Or.inl (by decide))).1
      "x" "" none Level.no "" false false true none⟩

/-- The upload helper itself opens no file handles (its callers do). -/
theorem Telegram._send_file_helper_opens (tg : Telegram) (chat_id : Option String)
    (method : String) (files : List (String × String)) (text : Option String)
    (title : String) (p_m : Option String) (lvl : Level) (icon : String)
    (silent : Bool) (rtmi : Option Int) (kwargs : List (String × Option PyVal)) :
    (Telegram._send_file_helper tg chat_id method files text title p_m lvl icon
      silent rtmi kwargs).opens = [] := by
  unfold Telegram._send_file_helper
  split <;> rfl

/-- The upload helper closes no file handles on either path. -/
theorem Telegram._send_file_helper_closes (tg : Telegram) (chat_id : Option String)
    (method : String) (files : List (String × String)) (text : Option String)
    (title : String) (p_m : Option String) (lvl : Level) (icon : String)
    (silent : Bool) (rtmi : Option Int) (kwargs : List (String × Option PyVal)) :
    (Telegram._send_file_helper tg chat_id method files text title p_m lvl icon
      silent rtmi kwargs).closes = [] := by
  unfold Telegram._send_file_helper
  split <;> rfl

/-- Counterexample for C4: a document upload with a thumbnail opens two
file handles and closes none of them, so not every handle opened for the
upload is closed after the request. -/
theorem claim_C4_counterexample :
    (Telegram.send_document tgX "doc.pdf" (some "th.jpg") none "" none none
      Level.no "" false none).opens = ["doc.pdf", "th.jpg"]
    ∧ (Telegram.send_document tgX "doc.pdf" (some "th.jpg") none "" none none
      Level.no "" false none).closes = []
    ∧ "doc.pdf" ∈ (Telegram.send_document tgX "doc.pdf" (some "th.jpg") none ""
      none none Level.no "" false none).opens
    ∧ "doc.pdf" ∉ (Telegram.send_document tgX "doc.pdf" (some "th.jpg") none ""
      none none Level.no "" false none).closes := by
  refine ⟨by decide, by decide, by decide, by decide⟩

/-- Claim C4, amended: no media-sending operation closes the file
handles it opens.  For every invocation of photo, document, audio,
video, animation, voice or sticker sending — success or failure path —
the close trace is empty, while the upload handle (and the secondary
thumbnail handle when one is opened) appears in the open trace (for
`send_sticker` the open happens only after the chat-id guard passes);
release is left to garbage collection by the interpreter. -/
theorem claim_C4_handles_left_open (tg : Telegram)
    (chat_id parse_mode : Option String) (level : Level) (icon : String)
    (silent supports_streaming : Bool) (text thumb : Option String)
    (title : String) (rtmi duration width height : Option Int)
    (performer : Option String)
    (photo document audio video animation voice sticker : String) :
    ((Telegram.send_photo tg photo text title chat_id parse_mode level icon
      silent rtmi).closes = []
     ∧ (Telegram.send_photo tg photo text title chat_id parse_mode level icon
      silent rtmi).opens = [photo])
    ∧ ((Telegram.send_document tg document thumb text title chat_id parse_mode
      level icon silent rtmi).closes = []
     ∧ (Telegram.send_document tg document thumb text title chat_id parse_mode
      level icon silent rtmi).opens
        = document :: (if isTruthy thumb then [thumb.getD ""] else []))
    ∧ ((Telegram.send_audio tg audio thumb text title chat_id parse_mode level
      icon silent duration performer rtmi).closes = []
     ∧ (Telegram.send_audio tg audio thumb text title chat_id parse_mode level
      icon silent duration performer rtmi).opens
        = audio :: (if isTruthy thumb then [thumb.getD ""] else []))
    ∧ ((Telegram.send_video tg video thumb text title chat_id parse_mode level
      icon silent duration width height supports_streaming rtmi).closes = []
     ∧ (Telegram.send_video tg video thumb text title chat_id parse_mode level
      icon silent duration width height supports_streaming rtmi).opens
        = video :: (if isTruthy thumb then [thumb.getD ""] else []))
    ∧ ((Telegram.send_animation tg animation thumb text title chat_id
      parse_mode level icon silent duration width height rtmi).closes = []
     ∧ (Telegram.send_animation tg animation thumb text title chat_id
      parse_mode level icon silent duration width height rtmi).opens
        = animation :: (if isTruthy thumb then [thumb.getD ""] else []))
    ∧ ((Telegram.send_voice tg voice text title chat_id parse_mode level icon
      silent duration rtmi).closes = []
     ∧ (Telegram.send_voice tg voice text title chat_id parse_mode level icon
      silent duration rtmi).opens = [voice])
    ∧ ((Telegram.send_sticker tg sticker chat_id silent rtmi).closes = []
     ∧ (Telegram.send_sticker tg sticker chat_id silent rtmi).opens
        = (if !(isTruthy tg.chat_id) && !(isTruthy chat_id) then []
           else [sticker])) := by
  refine ⟨⟨?_, ?_⟩, ⟨?_, ?_⟩, ⟨?_, ?_⟩, ⟨?_, ?_⟩, ⟨?_, ?_⟩, ⟨?_, ?_⟩,
      ⟨?_, ?_⟩⟩ <;>
    first
      | (simp [Telegram.send_photo, Telegram.send_document,
          Telegram.send_audio, Telegram.send_video, Telegram.send_animation,
          Telegram.send_voice, Telegram._send_file_helper_closes,
          Telegram._send_file_helper_opens]; done)
      | (unfold Telegram.send_sticker; split <;> rfl)

/-- Counterexample for C9: optional fields the caller did not supply are
not absent from the outbound parameter set — they are present with a
null value (`reply_to_message_id` for a text message, and
`correct_option_id` and `explanation` for a poll). -/
theorem claim_C9_counterexample :
    ("reply_to_message_id", (none : Option PyVal)) ∈
      paramsOf (Telegram.send_message tgX "hi" "" none none Level.no "" false
        false true none)
    ∧ ("correct_option_id", (none : Option PyVal)) ∈
      paramsOf (Telegram.send_poll tgX "q" ["A"] none false "regular" false
        none none none none none false false none)
    ∧ ("explanation", (none : Option PyVal)) ∈
      paramsOf (Telegram.send_poll tgX "q" ["A"] none false "regular" false
        none none none none none false false none) :=
  ⟨by decide, by decide, by decide⟩

/-- Claim C9, amended: optional fields not supplied by the caller stay
in the outbound parameter set with a null value (their omission from the
wire is left to the external HTTP library, which drops nulls); a
supplied `reply_to_message_id` is coerced with `int()` to its numeric
wire form (a falsy zero being turned into null); a supplied
`correct_option_id` is passed numerically as given; and boolean flags
are serialized through `str()` as the tokens `"True"`/`"False"`. -/
theorem claim_C9_param_marshalling (tg : Telegram) (chat_id : Option String)
    (h : isTruthy tg.chat_id = true ∨ isTruthy chat_id = true) :
    (∀ (text title : String) (parse_mode : Option String) (level : Level)
      (icon : String) (silent fixed dwpp : Bool),
      ("reply_to_message_id", (none : Option PyVal)) ∈
        paramsOf (Telegram.send_message tg text title chat_id parse_mode level
          icon silent fixed dwpp none)
      ∧ (∀ n : Int, n ≠ 0 → ("reply_to_message_id", some (PyVal.int n)) ∈
        paramsOf (Telegram.send_message tg text title chat_id parse_mode level
          icon silent fixed dwpp (some n)))
      ∧ ("disable_notification", some (PyVal.str (pyStr silent))) ∈
        paramsOf (Telegram.send_message tg text title chat_id parse_mode level
          icon silent fixed dwpp none))
    ∧ (∀ (question : String) (options : List String) (ia : Bool) (ty : String)
      (ama ic silent : Bool),
      ("correct_option_id", (none : Option PyVal)) ∈
        paramsOf (Telegram.send_poll tg question options chat_id ia ty ama none
          none none none none ic silent none)
      ∧ ("explanation", (none : Option PyVal)) ∈
        paramsOf (Telegram.send_poll tg question options chat_id ia ty ama none
          none none none none ic silent none)
      ∧ ("open_period", (none : Option PyVal)) ∈
        paramsOf (Telegram.send_poll tg question options chat_id ia ty ama none
          none none none none ic silent none)
      ∧ (∀ n : Int, ("correct_option_id", some (PyVal.int n)) ∈
        paramsOf (Telegram.send_poll tg question options chat_id ia ty ama
          (some n) none none none none ic silent none))
      ∧ ("is_anonymous", some (PyVal.str (pyStr ia))) ∈
        paramsOf (Telegram.send_poll tg question options chat_id ia ty ama none
          none none none none ic silent none))
    ∧ pyStr true = "True" ∧ pyStr false = "False" := by
  refine ⟨?_, ?_, rfl, rfl⟩
  · intro text title parse_mode level icon silent fixed dwpp
    refine ⟨?_, ?_, ?_⟩ <;>
      try intro n hn
    all_goals
      rcases h with h | h <;>
        simp [Telegram.send_message, paramsOf, replyParam, h]
    all_goals simp [hn]
  · intro question options ia ty ama ic silent
    refine ⟨?_, ?_, ?_, ?_, ?_⟩ <;>
      try intro n
    all_goals
      rcases h with h | h <;>
        simp [Telegram.send_poll, paramsOf, replyParam, h]

/-- Witness for the amended C9: a supplied reply id appears as its
integer wire form. -/
theorem claim_C9_param_marshalling_witness :
    ("reply_to_message_id", some (PyVal.int 5)) ∈
      paramsOf (Telegram.send_message tgX "hi" "" none none Level.no "" false
        false true (some 5)) :=
  ((claim_C9_param_marshalling tgX none (Or.inl (by decide))).1 "hi" "" none
    Level.no "" false false true).2.1 5 (by decide)

/-- Claim C10: for `/sendAudio` the supplied title is never embedded in
the assembled caption — the caption is exactly the icon prefix plus the
body text — and the title instead travels as the dedicated `title`
parameter (also through `send_audio` itself); for every other method the
helper embeds the title in the caption it assembles. -/
theorem claim_C10_audio_dedicated_title (tg : Telegram) (chat_id : Option String)
    (h : isTruthy tg.chat_id = true ∨ isTruthy chat_id = true) :
    ∀ (files : List (String × String)) (text : Option String) (title : String)
      (p_m : Option String) (lvl : Level) (icon : String) (silent : Bool)
      (rtmi duration : Option Int) (performer thumb : Option String)
      (audio : String) (kwargs : List (String × Option PyVal)),
      ("caption", some (PyVal.str (Telegram._text tg
          (if isTruthy text then text.getD "" else "") ""
          (pyOr p_m tg.parse_mode)
          (if icon = "" then Telegram._icons lvl else icon)))) ∈
        paramsOf (Telegram._send_file_helper tg chat_id "/sendAudio" files text
          title p_m lvl icon silent rtmi kwargs)
      ∧ ("title", some (PyVal.str title)) ∈
        paramsOf (Telegram._send_file_helper tg chat_id "/sendAudio" files text
          title p_m lvl icon silent rtmi kwargs)
      ∧ Telegram._text tg (if isTruthy text then text.getD "" else "") ""
          (pyOr p_m tg.parse_mode)
          (if icon = "" then Telegram._icons lvl else icon)
        = (if icon = "" then Telegram._icons lvl else icon) ++ " "
          ++ (if isTruthy text then text.getD "" else "")
      ∧ ("caption", some (PyVal.str (Telegram._text tg
          (if isTruthy text then text.getD "" else "") ""
          (pyOr p_m tg.parse_mode)
          (if icon = "" then Telegram._icons lvl else icon)))) ∈
        paramsOf (Telegram.send_audio tg audio thumb text title chat_id p_m lvl
          icon silent duration performer rtmi)
      ∧ ("title", some (PyVal.str title)) ∈
        paramsOf (Telegram.send_audio tg audio thumb text title chat_id p_m lvl
          icon silent duration performer rtmi)
      ∧ (∀ method, method ≠ "/sendAudio" →
        ("caption", some (PyVal.str (Telegram._text tg
            (if isTruthy text then text.getD "" else "") title
            (pyOr p_m tg.parse_mode)
            (if icon = "" then Telegram._icons lvl else icon)))) ∈
          paramsOf (Telegram._send_file_helper tg chat_id method files text
            title p_m lvl icon silent rtmi kwargs)) := by
  intro files text title p_m lvl icon silent rtmi duration performer thumb
    audio kwargs
  refine ⟨?_, ?_, ?_, ?_, ?_, ?_⟩
  · rcases h with h | h <;>
      simp [Telegram._send_file_helper, paramsOf, h]
  · rcases h with h | h <;>
      simp [Telegram._send_file_helper, paramsOf, h]
  · simp [Telegram._text, String.append_assoc]
  · rcases h with h | h <;>
      simp [Telegram.send_audio, Telegram._send_file_helper, paramsOf, h]
  · rcases h with h | h <;>
      simp [Telegram.send_audio, Telegram._send_file_helper, paramsOf, h]
  · intro method hm
    rcases h with h | h <;>
      simp [Telegram._send_file_helper, paramsOf, h, hm]

/-- Witness for C10: a concrete audio send carries the title as the
dedicated parameter. -/
theorem claim_C10_audio_dedicated_title_witness :
    ("title", some (PyVal.str "Song")) ∈
      paramsOf (Telegram._send_file_helper tgX none "/sendAudio" [] none "Song"
        none Level.no "" false none []) :=
  (claim_C10_audio_dedicated_title tgX none (Or.inl (by decide)) [] none "Song"
    none Level.no "" false none none none none "a.mp3" []).2.1
